import Mathlib

/-!
Verification development for the search/scoring engine of this repository
(`src/services/search_api_manager.py` and the complete-workflow route of
`src/routes/enhanced_workflow.py`).

The Python code is shallowly embedded:

* Python dict-shaped values reaching the scoring engine are modelled by
  `PyVal` (scalar JSON-ish values: `int`, `float`, `str`, `None`); floats are
  modelled exactly as rationals, so float rounding/`inf`/`nan` are outside the
  model.
* A social post is a record of `Option PyVal` fields, one per dictionary key
  that the module reads (`none` = key absent).
* Python exceptions are modelled with `Except`: a `try/except` block becomes a
  `match` on the `Except` value; collaborators living outside this module
  (network calls, the crawl/capture services) are oracles passed in as
  `Except`-valued inputs.
* Mutation of `self.api_keys` / `self.key_indices` is modelled by explicit
  state passing on `KeyState`; Python dict assignment is `dictSet`
  (replace-first-or-append) and dict lookup is `List.lookup`.
-/

/-- Scalar Python values that can appear in the dict-shaped posts and results
handled by `search_api_manager.py`. Floats are modelled exactly as rationals
(no `inf`/`nan`/rounding). -/
inductive PyVal where
  | int (n : Int)
  | float (q : Rat)
  | str (s : String)
  | pynone
deriving Repr, DecidableEq

/-- Strip leading and trailing whitespace from a character list. -/
def trimChars (l : List Char) : List Char :=
  ((l.dropWhile Char.isWhitespace).reverse.dropWhile Char.isWhitespace).reverse

/-- A nonempty all-digit character list read as a natural number. -/
def digitsToNat (l : List Char) : Option Nat :=
  if !l.isEmpty && l.all Char.isDigit then
    some (l.foldl (fun a c => a * 10 + (c.toNat - 48)) 0)
  else none

/-- Integer literal parsing as done by Python's `int(str)`: optional
surrounding whitespace, optional sign, then decimal digits (Python's
underscore separators are not modelled; no claim depends on them). -/
def parseIntLit (s : String) : Option Int :=
  match trimChars s.data with
  | '-' :: rest => (digitsToNat rest).map (fun n => -(n : Int))
  | '+' :: rest => (digitsToNat rest).map (fun n => (n : Int))
  | l => (digitsToNat l).map (fun n => (n : Int))

/-- Truncation toward zero, as Python's `int(float)`. -/
def truncToward0 (q : Rat) : Int :=
  if 0 ≤ q then q.floor else q.ceil

/-- Python's `int(x)` builtin on a scalar value.  `.error ()` stands for the
`ValueError`/`TypeError` it raises on unparseable strings and on `None`
(both exception classes are caught together by the caller's
`except (ValueError, TypeError)`, so they need not be distinguished). -/
def pyInt (v : PyVal) : Except Unit Int :=
  match v with
  | .int n => .ok n
  | .float q => .ok (truncToward0 q)
  | .str s =>
    match parseIntLit s with
    | some n => .ok n
    | none => .error ()
  | .pynone => .error ()

/-- Python `x * 10` on a scalar value: numeric multiplication, string
repetition for `str`, `TypeError` for `None`. -/
def pyMul10 (v : PyVal) : Except Unit PyVal :=
  match v with
  | .int n => .ok (.int (n * 10))
  | .float q => .ok (.float (q * 10))
  | .str s => .ok (.str (String.join (List.replicate 10 s)))
  | .pynone => .error ()

/-- Python `v == "lit"` where `lit` is a string literal: true only for equal
strings, false for any non-string value. -/
def pyEqStr (v : PyVal) (lit : String) : Bool :=
  match v with
  | .str s => s = lit
  | _ => false

/-- Numeric view of a scalar value (used for Python comparisons such as
`viral_score >= 6.0`, which raise `TypeError` on non-numbers). -/
def pyToRat (v : PyVal) : Option Rat :=
  match v with
  | .int n => some (n : Rat)
  | .float q => some q
  | .str _ => none
  | .pynone => none

/-- Python `v >= c` against a float constant: numeric comparison, or a
`TypeError` (whose message is abbreviated to the exception class name). -/
def pyGeConst (v : PyVal) (c : Rat) : Except String Bool :=
  match pyToRat v with
  | some r => .ok (decide (c ≤ r))
  | none => .error "TypeError"

/-- A social post: one `Option PyVal` field per dictionary key read by
`search_api_manager.py` (`none` models an absent key). -/
structure Post where
  platform : Option PyVal := none
  view_count : Option PyVal := none
  views : Option PyVal := none
  like_count : Option PyVal := none
  likes : Option PyVal := none
  comment_count : Option PyVal := none
  comments : Option PyVal := none
  shares : Option PyVal := none
  retweets : Option PyVal := none
  retweet_count : Option PyVal := none
  replies : Option PyVal := none
  reply_count : Option PyVal := none
  relevance_score : Option PyVal := none
  viral_score : Option PyVal := none
  viral_category : Option PyVal := none
deriving Repr, DecidableEq

/-- `post.get(primary, post.get(fallback, 0))`. -/
def getCounter (primary fallback : Option PyVal) : PyVal :=
  primary.getD (fallback.getD (.int 0))

/-- A weighted three-counter formula `(a/da + b/db + c/dc) / dTotal`, clamped
from above at 10, as each recognized-platform branch of
`_calculate_viral_score` computes it.  The three `int(...)` conversions are
evaluated together: since `int` is pure and every failure is the same caught
`ValueError`/`TypeError`, the result is identical to Python's sequential
evaluation. -/
def weighted3 (va vb vc : PyVal) (da db dc dTotal : Rat) : Except Unit PyVal :=
  match pyInt va, pyInt vb, pyInt vc with
  | .ok a, .ok b, .ok c =>
    .ok (.float (min 10 (((a : Rat) / da + (b : Rat) / db + (c : Rat) / dc) / dTotal)))
  | _, _, _ => .error ()

/-- `SearchAPIManager._calculate_viral_score` (lines 291-337).  The whole
platform dispatch sits inside `try: ... except (ValueError, TypeError):
return 0.0`; within the model the only raisable operations are `int(...)`
and the `* 10` of the fallback branch, and both raise exactly
`ValueError`/`TypeError`, so every `.error` of the body is caught. -/
def calculate_viral_score (post : Post) : PyVal :=
  let platform := post.platform.getD (.str "unknown")
  let body : Except Unit PyVal :=
    if pyEqStr platform "youtube" then
      weighted3 (getCounter post.view_count post.views)
        (getCounter post.like_count post.likes)
        (getCounter post.comment_count post.comments) 1000 100 10 100
    else if pyEqStr platform "instagram" || pyEqStr platform "facebook" then
      weighted3 (getCounter post.likes post.like_count)
        (getCounter post.comments post.comment_count)
        (post.shares.getD (.int 0)) 100 10 5 50
    else if pyEqStr platform "twitter" then
      weighted3 (getCounter post.retweets post.retweet_count)
        (getCounter post.likes post.like_count)
        (getCounter post.replies post.reply_count) 10 50 5 20
    else if pyEqStr platform "tiktok" then
      weighted3 (getCounter post.views post.view_count)
        (post.likes.getD (.int 0))
        (post.shares.getD (.int 0)) 10000 500 100 50
    else
      pyMul10 (post.relevance_score.getD (.int 0))
  match body with
  | .ok v => v
  | .error _ => .float 0

/-- `SearchAPIManager._categorize_viral_level` (lines 339-348).  The viral
score reaching it is a number; it is taken here as a rational. -/
def categorize_viral_level (viral_score : Rat) : String :=
  if 9 ≤ viral_score then "MEGA_VIRAL"
  else if (15 : Rat) / 2 ≤ viral_score then "VIRAL"
  else if 6 ≤ viral_score then "TRENDING"
  else "POPULAR"

/-- The platform names with a dedicated branch in
`_calculate_viral_score`. -/
def recognizedPlatforms : List String :=
  ["youtube", "instagram", "facebook", "twitter", "tiktok"]

/-- A post whose engagement counters are the given non-negative integers, one
per counter family (each stored under a key every platform branch reads:
`view_count`/`likes`/`comments`/`shares`/`retweets`/`replies`). -/
def mkCounterPost (platform : String) (v l c sh r rp : Nat) : Post :=
  { platform := some (.str platform),
    view_count := some (.int v),
    likes := some (.int l),
    comments := some (.int c),
    shares := some (.int sh),
    retweets := some (.int r),
    replies := some (.int rp) }

/-- Python dict assignment `d[k] = v` on an association list: replace the
first binding of `k`, or append a new binding. -/
def dictSet {α : Type} (l : List (String × α)) (k : String) (v : α) : List (String × α) :=
  match l with
  | [] => [(k, v)]
  | (k', v') :: rest => if k' = k then (k, v) :: rest else (k', v') :: dictSet rest k v

/-- The two dictionaries owned by `SearchAPIManager`: `self.api_keys`
(provider → credential list) and `self.key_indices` (provider → cursor). -/
structure KeyState where
  api_keys : List (String × List String) := []
  key_indices : List (String × Nat) := []
deriving Repr, DecidableEq

/-- `self.providers` (line 26). -/
def providersList : List String := ["FIRECRAWL", "JINA", "GOOGLE", "EXA", "SERPER", "YOUTUBE"]

/-- The numbered-key loop of `_load_api_keys` (lines 51-58): read
`{provider}_API_KEY_1`, `_2`, ... until one is missing.  The Python loop is
`while True`; it terminates as soon as a numbered name is absent, and since
the environment is a finite map each found key consumes a distinct name, so
`env.length + 1` iterations always reach the terminating probe. -/
def loadNumberedKeys (env : List (String × String)) (provider : String) :
    Nat → Nat → List String
  | 0, _ => []
  | fuel + 1, counter =>
    match env.lookup (provider ++ "_API_KEY_" ++ toString counter) with
    | some k => k :: loadNumberedKeys env provider fuel (counter + 1)
    | none => []

/-- The credential list `_load_api_keys` assembles for one provider: the main
`{provider}_API_KEY` (if set) followed by the numbered keys. -/
def providerKeys (env : List (String × String)) (provider : String) : List String :=
  (match env.lookup (provider ++ "_API_KEY") with
   | some k => [k]
   | none => []) ++ loadNumberedKeys env provider (env.length + 1) 1

/-- The per-provider registration step of `_load_api_keys` (lines 60-67):
providers with no configured credential are left unregistered. -/
def loadStep (env : List (String × String)) (s : KeyState) (provider : String) :
    KeyState :=
  let keys := providerKeys env provider
  if keys.isEmpty then s
  else { api_keys := dictSet s.api_keys provider keys,
         key_indices := dictSet s.key_indices provider 0 }

/-- `SearchAPIManager._load_api_keys` (lines 40-67): register each provider
that has at least one configured credential, with its cursor at 0. -/
def load_api_keys (env : List (String × String)) : KeyState :=
  providersList.foldl (loadStep env) {}

/-- `SearchAPIManager.get_next_key` (lines 69-85).  `.ok (none, s)` is the
`return None` of the unavailable-provider path; the `.error` branches are the
`KeyError`/`IndexError` Python would raise if the cursor dictionary were
inconsistent with the key dictionary (unreachable from the initial state, as
proved below). -/
def get_next_key (s : KeyState) (provider : String) :
    Except String (Option String × KeyState) :=
  match s.api_keys.lookup provider with
  | none => .ok (none, s)
  | some keys =>
    if keys.isEmpty then .ok (none, s)
    else
      match s.key_indices.lookup provider with
      | none => .error ("KeyError: " ++ provider)
      | some current_index =>
        if hlt : current_index < keys.length then
          .ok (some (keys.get ⟨current_index, hlt⟩),
            { s with key_indices :=
                dictSet s.key_indices provider ((current_index + 1) % keys.length) })
        else .error "IndexError: list index out of range"

/-- `n` consecutive calls of `get_next_key` for one provider, threading the
state; `none` if some call raises. -/
def iterateCalls (s : KeyState) (provider : String) :
    Nat → Option (List (Option String) × KeyState)
  | 0 => some ([], s)
  | n + 1 =>
    match get_next_key s provider with
    | .error _ => none
    | .ok (r, s') =>
      match iterateCalls s' provider n with
      | none => none
      | some (rs, s'') => some (r :: rs, s'')

/-- Cursor/pool consistency: every registered provider has a nonempty pool
and a cursor strictly below the pool length. -/
def KeyInv (s : KeyState) : Prop :=
  ∀ p keys, s.api_keys.lookup p = some keys →
    keys ≠ [] ∧ ∃ i, s.key_indices.lookup p = some i ∧ i < keys.length

/-- The payload of `social_results` as read by `_identify_viral_content` and
the pipeline (`all_posts`, `platform_results`, optional `error`).  Absent
dictionary keys behave as the defaults that the module's `.get` calls
supply. -/
structure SocialResults where
  all_posts : List Post := []
  platform_results : List (String × List Post) := []
  total_posts : Nat := 0
  error : Option String := none
deriving Repr, DecidableEq

/-- The augmentation step of `_identify_viral_content` (lines 281-282): store
the computed score under `viral_score` and its category under
`viral_category`.  The score reaching `_categorize_viral_level` has passed
the numeric `>= 6.0` comparison, so its numeric value is read off with
`pyToRat`. -/
def augmentPost (p : Post) : Post :=
  let vs := calculate_viral_score p
  { p with viral_score := some vs,
           viral_category := some (.str (categorize_viral_level ((pyToRat vs).getD 0))) }

/-- The scan loop of `_identify_viral_content` (lines 277-283): score each
post, keep those at or above 6.0 augmented; a `TypeError` from the `>= 6.0`
comparison (non-numeric score) propagates. -/
def viralLoop : List Post → Except String (List Post)
  | [] => .ok []
  | p :: rest =>
    match pyGeConst (calculate_viral_score p) 6 with
    | .error e => .error e
    | .ok b =>
      match viralLoop rest with
      | .error e => .error e
      | .ok tail => .ok (if b then augmentPost p :: tail else tail)

/-- The sort key `x.get('viral_score', 0)` of line 286, read as a rational
(every kept post carries a numeric `viral_score`). -/
def sortKey (p : Post) : Rat :=
  (p.viral_score.bind pyToRat).getD 0

/-- Descending order on the sort key; `list.sort(key=..., reverse=True)` is
modelled as an insertion sort by this relation (same sorted permutation;
Python's tie order is not depended on by any claim). -/
def descRel (a b : Post) : Prop := sortKey b ≤ sortKey a

instance : DecidableRel descRel := fun a b =>
  inferInstanceAs (Decidable (sortKey b ≤ sortKey a))

instance : IsTotal Post descRel :=
  ⟨fun a b => (le_total (sortKey b) (sortKey a)).imp id id⟩

instance : IsTrans Post descRel :=
  ⟨fun _ _ _ hab hbc => le_trans hbc hab⟩

/-- `SearchAPIManager._identify_viral_content` (lines 267-289): empty input
short-circuits to `[]`; otherwise score/filter/augment, sort descending by
score, return the top 15. -/
def identify_viral_content (social : SocialResults) : Except String (List Post) :=
  let all_posts := social.all_posts
  if all_posts.isEmpty then .ok []
  else
    match viralLoop all_posts with
    | .error e => .error e
    | .ok viral_posts => .ok ((viral_posts.insertionSort descRel).take 15)

/-- Spec-side rendering of §4.3 step 4 / claim C6, written from the spec's
words: the posts whose viral score is at or above the 6.0 threshold, each
augmented with its score and category. -/
def keptPosts (posts : List Post) : List Post :=
  (posts.filter
    (fun p => decide (6 ≤ (pyToRat (calculate_viral_score p)).getD 0))).map augmentPost

/-- A post whose viral score is a number (the only posts on which the `>= 6.0`
comparison of `_identify_viral_content` does not raise). -/
def NumericScore (p : Post) : Prop :=
  ∃ q, pyToRat (calculate_viral_score p) = some q

/-- A provider result dict, with the keys this module reads or writes:
`success`, `error`, `results` (items abstracted to opaque payload strings),
`provider`.  Absent keys are the defaults the module's `.get` calls use. -/
structure ApiResult where
  success : Bool := true
  error : Option String := none
  results : List String := []
  provider : Option String := none
deriving Repr, DecidableEq

/-- The `except Exception` handler of `_execute_api_rotation_search`
(lines 218-220): an exception becomes `{'success': False, 'error': str(e)}`;
a normal result is stored as is. -/
def caughtResult (r : Except String ApiResult) : ApiResult :=
  match r with
  | .ok a => a
  | .error msg => { success := false, error := some msg }

/-- One iteration of the provider loop of `_execute_api_rotation_search`
(lines 191-220), for one provider: skip unregistered providers; otherwise
rotate a credential and run the provider's search (the `_search_*` network
calls are the oracle `search`), recording either its result or the caught
exception.  A falsy credential (`None` or `""`) skips the provider without
recording anything; an exception from `get_next_key` itself is caught by the
same handler. -/
def fanoutStep (search : String → String → Except String ApiResult)
    (acc : List (String × ApiResult) × KeyState) (provider : String) :
    List (String × ApiResult) × KeyState :=
  if (acc.2.api_keys.lookup provider).isSome then
    match get_next_key acc.2 provider with
    | .error e => (dictSet acc.1 provider { success := false, error := some e }, acc.2)
    | .ok (none, s') => (acc.1, s')
    | .ok (some api_key, s') =>
      if api_key.isEmpty then (acc.1, s')
      else (dictSet acc.1 provider (caughtResult (search provider api_key)), s')
  else acc

/-- `SearchAPIManager._execute_api_rotation_search` (lines 186-222): the
provider fan-out in declaration order.  The function is total — every
provider failure is absorbed into the result mapping. -/
def execute_api_rotation_search (s : KeyState)
    (search : String → String → Except String ApiResult) :
    List (String × ApiResult) × KeyState :=
  providersList.foldl (fanoutStep search) ([], s)

/-- The value returned by `mcp_supadata_manager.search_all_platforms`:
`success` flag and a `platforms` mapping, collapsed one level so that a
platform name maps directly to its `results` list of posts. -/
structure SupaData where
  success : Bool := false
  platforms : List (String × List Post) := []

/-- The social platform list of `_execute_social_search` (line 230). -/
def socialPlatforms : List String :=
  ["youtube", "instagram", "twitter", "tiktok", "facebook"]

/-- External collaborators of the pipeline, as oracles: the WebSailor deep
crawl, the per-provider `_search_*` network calls, the supadata import and
its per-platform search, and the viral capture service.  `.error` models the
collaborator raising an exception whose `str` is the carried message. -/
structure Oracles where
  websailor : Except String (List String)
  search : String → String → Except String ApiResult
  supadataImport : Except String Unit
  supadata : String → Except String SupaData
  capture : Except String (List String)

/-- One iteration of the platform loop of `_execute_social_search`
(lines 234-254): a successful supadata call contributes that platform's
posts; an unsuccessful one contributes nothing; an exception is caught and
records an empty list for that platform only. -/
def socialStep (o : Oracles) (acc : List Post × List (String × List Post))
    (platform : String) : List Post × List (String × List Post) :=
  match o.supadata platform with
  | .error _ => (acc.1, dictSet acc.2 platform [])
  | .ok platform_data =>
    if platform_data.success then
      let platform_posts := (platform_data.platforms.lookup platform).getD []
      (acc.1 ++ platform_posts, dictSet acc.2 platform platform_posts)
    else acc

/-- `SearchAPIManager._execute_social_search` (lines 224-265): total — the
outer `try` absorbs an import failure into an error dict, and the inner
`try` absorbs per-platform failures. -/
def execute_social_search (o : Oracles) : SocialResults :=
  match o.supadataImport with
  | .error e => { all_posts := [], platform_results := [], error := some e }
  | .ok _ =>
    let r := socialPlatforms.foldl (socialStep o) ([], [])
    { all_posts := r.1, platform_results := r.2, total_posts := r.1.length }

/-- The three feature flags set in `SearchAPIManager.__init__`
(lines 29-31). -/
structure ManagerFlags where
  websailor_enabled : Bool := true
  social_search_enabled : Bool := true
  screenshot_capture_enabled : Bool := true

/-- The `statistics` sub-dict of the pipeline's `search_results`
(`search_duration`, a wall-clock float, is outside the model). -/
structure Statistics where
  total_sources : Nat := 0
  websailor_pages : Nat := 0
  api_sources : Nat := 0
  social_posts : Nat := 0
  screenshots_count : Nat := 0
deriving Repr, DecidableEq

/-- The `search_results` structure assembled by
`execute_massive_search_with_websailor` (lines 98-115); `websailor_results`
and `social_results` start as empty dicts, modelled by `none`. -/
structure SearchResults where
  query : String := ""
  session_id : String := ""
  websailor_results : Option (List String) := none
  api_results : List (String × ApiResult) := []
  social_results : Option SocialResults := none
  viral_content : List Post := []
  screenshots_captured : List String := []
  statistics : Statistics := {}

/-- Phases 3-5 of the pipeline (lines 144-165), entered only when
`social_search_enabled`: social fan-out (absorbing), viral selection (its
`TypeError` propagates to the outer handler), and — when capture is enabled
and viral posts exist — the capture hand-off, whose exception also
propagates. -/
def socialPhases (flags : ManagerFlags) (o : Oracles) (r2 : SearchResults) :
    Except String SearchResults :=
  let social := execute_social_search o
  let r3 := { r2 with
              social_results := some social,
              statistics := { r2.statistics with social_posts := social.all_posts.length } }
  match identify_viral_content social with
  | .error e => .error e
  | .ok viral_content =>
    let r4 := { r3 with viral_content := viral_content }
    if flags.screenshot_capture_enabled && !viral_content.isEmpty then
      match o.capture with
      | .error e => .error e
      | .ok shots =>
        .ok { r4 with
              screenshots_captured := shots,
              statistics := { r4.statistics with screenshots_count := shots.length } }
    else .ok r4

/-- `SearchAPIManager.execute_massive_search_with_websailor` (lines 87-184).
The whole body sits in `try: ... except Exception as e: ... raise` — the
handler only logs and re-raises, so the function's outcome is exactly the
body's: any exception escaping a phase aborts the run. -/
def execute_massive_search_with_websailor (flags : ManagerFlags) (s : KeyState)
    (o : Oracles) (query session_id : String) : Except String SearchResults :=
  let base : SearchResults := { query := query, session_id := session_id }
  let afterPhase1 : Except String SearchResults :=
    if flags.websailor_enabled then
      match o.websailor with
      | .error e => .error e
      | .ok pages =>
        .ok { base with
              websailor_results := some pages,
              statistics := { base.statistics with websailor_pages := pages.length } }
    else .ok base
  match afterPhase1 with
  | .error e => .error e
  | .ok r1 =>
    let api := (execute_api_rotation_search s o.search).1
    let r2 := { r1 with
                api_results := api,
                statistics := { r1.statistics with
                  api_sources := (api.map (fun pr => pr.2.results.length)).sum } }
    let afterPhase5 : Except String SearchResults :=
      if flags.social_search_enabled then socialPhases flags o r2 else .ok r2
    match afterPhase5 with
    | .error e => .error e
    | .ok r5 =>
      .ok { r5 with statistics := { r5.statistics with
              total_sources := r5.statistics.websailor_pages +
                r5.statistics.api_sources + r5.statistics.social_posts } }

/-- Collaborator outcomes for the background stage of the complete-workflow
route (`enhanced_workflow.py`, `execute_full_workflow`, lines 342-426): the
massive search, the viral analysis, the synthesis engine, the module
processor and the final-report compiler, each either returning or raising. -/
structure WorkflowOracles where
  search : Except String Unit
  viral : Except String Unit
  synthesis : Except String Unit
  modulesGen : Except String Unit
  finalReport : Except String Unit

/-- The collection-report step of `execute_full_workflow` (lines 382-385): it
calls the module-level names `_generate_collection_report` and
`_save_collection_report`, which are defined nowhere in
`enhanced_workflow.py` and are not imported (the module defines only
`_generate_enhanced_collection_report` / `_save_enhanced_collection_report`),
so evaluating the call raises `NameError`. -/
def collectionReportCall : Except String Unit :=
  .error "NameError: name _generate_collection_report is not defined"

/-- What the background thread persists: the `workflow_completo` success
artifact, or the `workflow_erro` artifact carrying `str(e)`. -/
inductive WorkflowOutcome where
  | completo
  | erro (msg : String)
deriving Repr, DecidableEq

/-- `execute_full_workflow` (lines 342-426): the stage body runs inside
`try: ... except Exception as e:`; on success it saves the
`workflow_completo` artifact, on any exception the `workflow_erro`
artifact. -/
def execute_full_workflow (o : WorkflowOracles) : WorkflowOutcome :=
  let body : Except String Unit :=
    match o.search with
    | .error e => .error e
    | .ok _ =>
      match o.viral with
      | .error e => .error e
      | .ok _ =>
        match collectionReportCall with
        | .error e => .error e
        | .ok _ =>
          match o.synthesis with
          | .error e => .error e
          | .ok _ =>
            match o.modulesGen with
            | .error e => .error e
            | .ok _ => o.finalReport
  match body with
  | .ok _ => .completo
  | .error e => .erro e

/-! ### Association-list (dict) lemmas -/

theorem lookup_dictSet_self {α : Type} (l : List (String × α)) (k : String) (v : α) :
    (dictSet l k v).lookup k = some v := by
  induction l with
  | nil => simp [dictSet, List.lookup]
  | cons hd t ih =>
    obtain ⟨k', v'⟩ := hd
    by_cases hk : k' = k
    · subst hk; simp [dictSet, List.lookup]
    · have hbeq : (k == k') = false := by
        simp [hk]
        exact fun h => hk h.symm
      simp [dictSet, hk, List.lookup, hbeq, ih]

theorem lookup_dictSet_ne {α : Type} (l : List (String × α)) (k q : String) (v : α)
    (h : q ≠ k) : (dictSet l k v).lookup q = l.lookup q := by
  induction l with
  | nil =>
    have hbeq : (q == k) = false := by simp [h]
    simp [dictSet, List.lookup, hbeq]
  | cons hd t ih =>
    obtain ⟨k', v'⟩ := hd
    by_cases hk : k' = k
    · subst hk
      have hbeq : (q == k') = false := by simp [h]
      simp [dictSet, List.lookup, hbeq]
    · simp [dictSet, hk, List.lookup, ih]

theorem lookup_singleton {α : Type} (k q : String) (v : α) :
    ([(k, v)] : List (String × α)).lookup q = if q = k then some v else none := by
  by_cases h : q = k
  · simp [List.lookup, h]
  · have hbeq : (q == k) = false := by simp [h]
    simp [List.lookup, hbeq, h]

/-! ### Key-rotation lemmas -/

theorem get_next_key_step (s : KeyState) (p : String) (keys : List String) (i : Nat)
    (hk : s.api_keys.lookup p = some keys) (hi : s.key_indices.lookup p = some i)
    (hlt : i < keys.length) :
    get_next_key s p = .ok (some (keys.get ⟨i, hlt⟩),
      { s with key_indices := dictSet s.key_indices p ((i + 1) % keys.length) }) := by
  have hne : keys.isEmpty = false := by
    cases keys with
    | nil => simp at hlt
    | cons a t => rfl
  simp [get_next_key, hk, hne, hi, hlt]

theorem iterateCalls_spec (p : String) (keys : List String) :
    ∀ (m : Nat) (s : KeyState) (i : Nat),
      s.api_keys.lookup p = some keys →
      s.key_indices.lookup p = some i → i < keys.length →
      ∃ s', iterateCalls s p m =
          some ((List.range m).map (fun k => some (keys.getD ((i + k) % keys.length) "")), s') ∧
        s'.api_keys = s.api_keys ∧
        s'.key_indices.lookup p = some ((i + m) % keys.length) := by
  intro m
  induction m with
  | zero =>
    intro s i hk hi hlt
    refine ⟨s, by simp [iterateCalls], rfl, ?_⟩
    rw [Nat.mod_eq_of_lt (by omega : i + 0 < keys.length)] at *
    simpa using hi
  | succ m ih =>
    intro s i hk hi hlt
    have hpos : 0 < keys.length := by omega
    have hstep := get_next_key_step s p keys i hk hi hlt
    set s₁ : KeyState :=
      { s with key_indices := dictSet s.key_indices p ((i + 1) % keys.length) } with hs₁
    have hk₁ : s₁.api_keys.lookup p = some keys := hk
    have hi₁ : s₁.key_indices.lookup p = some ((i + 1) % keys.length) :=
      lookup_dictSet_self s.key_indices p ((i + 1) % keys.length)
    have hlt₁ : (i + 1) % keys.length < keys.length := Nat.mod_lt _ hpos
    obtain ⟨s', hiter, hapi, hidx⟩ := ih s₁ ((i + 1) % keys.length) hk₁ hi₁ hlt₁
    refine ⟨s', ?_, hapi, ?_⟩
    · have hlist :
          (List.range m).map
              (fun k => some (keys.getD (((i + 1) % keys.length + k) % keys.length) "")) =
            (List.range m).map
              (fun k => some (keys.getD ((i + (k + 1)) % keys.length) "")) := by
        apply List.map_congr_left
        intro a _
        rw [Nat.mod_add_mod]
        have : i + 1 + a = i + (a + 1) := by omega
        rw [this]
      simp only [iterateCalls, hstep, ← hs₁, hiter, hlist]
      have hhead : keys.get ⟨i, hlt⟩ = keys.getD ((i + 0) % keys.length) "" := by
        rw [Nat.add_zero, Nat.mod_eq_of_lt hlt, List.getD_eq_getElem keys "" hlt]
        simp
      rw [List.range_succ_eq_map]
      simp only [List.map_cons, List.map_map]
      rw [hhead]
      congr 1
    · rw [hidx, Nat.mod_add_mod]
      have harg : i + 1 + m = i + (m + 1) := by omega
      rw [harg]

theorem map_range_getD (keys : List String) :
    (List.range keys.length).map (fun k => some (keys.getD (k % keys.length) "")) =
      keys.map some := by
  apply List.ext_getElem (by simp)
  intro n h₁ h₂
  have hn : n < keys.length := by simpa using h₂
  simp only [List.getElem_map, List.getElem_range]
  rw [Nat.mod_eq_of_lt hn, List.getD_eq_getElem keys "" hn]

/-- C3: starting from a freshly loaded registry state (cursor 0), for a
provider whose pool holds `N >= 1` credentials, `N` consecutive
`get_next_key` calls return each credential exactly once in insertion
order, and the `(N+1)`-th call returns the first credential again. -/
theorem claim_C3_rotation_cycle (s : KeyState) (p : String) (keys : List String) (N : Nat)
    (hk : s.api_keys.lookup p = some keys)
    (hi : s.key_indices.lookup p = some 0)
    (hN : keys.length = N) (hpos : 0 < N) :
    (∃ s', iterateCalls s p N = some (keys.map some, s')) ∧
    (∃ s'', iterateCalls s p (N + 1) =
        some (keys.map some ++ [some (keys.getD 0 "")], s'')) := by
  subst hN
  constructor
  · obtain ⟨s', hiter, -, -⟩ := iterateCalls_spec p keys keys.length s 0 hk hi hpos
    refine ⟨s', ?_⟩
    rw [hiter]
    congr 2
    simp only [Nat.zero_add]
    exact map_range_getD keys
  · obtain ⟨s'', hiter, -, -⟩ := iterateCalls_spec p keys (keys.length + 1) s 0 hk hi hpos
    refine ⟨s'', ?_⟩
    rw [hiter]
    congr 2
    simp only [Nat.zero_add]
    rw [List.range_succ, List.map_append, map_range_getD keys]
    simp [Nat.mod_self]

theorem claim_C3_rotation_cycle_witness :
    (∃ s', iterateCalls
        { api_keys := [("GOOGLE", ["k1", "k2", "k3"])], key_indices := [("GOOGLE", 0)] }
        "GOOGLE" 3 = some ([some "k1", some "k2", some "k3"], s')) ∧
    (∃ s'', iterateCalls
        { api_keys := [("GOOGLE", ["k1", "k2", "k3"])], key_indices := [("GOOGLE", 0)] }
        "GOOGLE" 4 = some ([some "k1", some "k2", some "k3", some "k1"], s'')) :=
  claim_C3_rotation_cycle _ "GOOGLE" ["k1", "k2", "k3"] 3 rfl rfl rfl (by decide)

/-- C9: for a provider that is unregistered or has an empty credential pool,
`get_next_key` returns `None` (provider unavailable) with the state
untouched, raising nothing — the `.ok` outcome is the non-error path. -/
theorem claim_C9_empty_pool_unavailable (s : KeyState) (p : String)
    (h : s.api_keys.lookup p = none ∨ s.api_keys.lookup p = some []) :
    get_next_key s p = .ok (none, s) := by
  rcases h with h | h
  · simp [get_next_key, h]
  · simp [get_next_key, h]

theorem claim_C9_empty_pool_unavailable_witness :
    get_next_key { api_keys := [], key_indices := [] } "GOOGLE" =
      .ok (none, { api_keys := [], key_indices := [] }) ∧
    get_next_key { api_keys := [("EXA", [])], key_indices := [("EXA", 0)] } "EXA" =
      .ok (none, { api_keys := [("EXA", [])], key_indices := [("EXA", 0)] }) :=
  ⟨claim_C9_empty_pool_unavailable _ "GOOGLE" (Or.inl rfl),
   claim_C9_empty_pool_unavailable _ "EXA" (Or.inr rfl)⟩

theorem load_foldl_inv (env : List (String × String)) :
    ∀ (ps : List String) (s0 : KeyState),
      (∀ p keys, s0.api_keys.lookup p = some keys →
        keys ≠ [] ∧ s0.key_indices.lookup p = some 0) →
      ∀ p keys, (ps.foldl (loadStep env) s0).api_keys.lookup p = some keys →
        keys ≠ [] ∧ (ps.foldl (loadStep env) s0).key_indices.lookup p = some 0 := by
  intro ps
  induction ps with
  | nil => intro s0 h0; simpa using h0
  | cons q rest ih =>
    intro s0 h0
    simp only [List.foldl_cons]
    apply ih
    intro p keys hk
    simp only [loadStep] at hk ⊢
    cases hemp : (providerKeys env q).isEmpty with
    | true =>
      simp only [hemp, if_true] at hk ⊢
      exact h0 p keys hk
    | false =>
      simp only [hemp, Bool.false_eq_true, if_false] at hk ⊢
      by_cases hpq : p = q
      · subst hpq
        rw [lookup_dictSet_self] at hk
        refine ⟨?_, lookup_dictSet_self _ _ _⟩
        injection hk with hk
        subst hk
        intro hnil
        rw [hnil] at hemp
        simp at hemp
      · rw [lookup_dictSet_ne _ _ _ _ hpq] at hk
        rw [lookup_dictSet_ne _ _ _ _ hpq]
        exact h0 p keys hk

/-- C8: (a) immediately after `_load_api_keys`, every registered provider has
a nonempty pool and its cursor at 0 (hence in `[0, len)`); (b) from any
state satisfying the cursor invariant, `get_next_key` returns without
raising, leaves `api_keys` untouched, preserves the invariant (the new
cursor is again in `[0, len)`), and changes no cursor other than the
rotated provider's. -/
theorem claim_C8_registry_invariant :
    (∀ env p keys, (load_api_keys env).api_keys.lookup p = some keys →
        keys ≠ [] ∧ (load_api_keys env).key_indices.lookup p = some 0) ∧
    (∀ s p, KeyInv s → ∃ r s', get_next_key s p = .ok (r, s') ∧
        s'.api_keys = s.api_keys ∧ KeyInv s' ∧
        ∀ q, q ≠ p → s'.key_indices.lookup q = s.key_indices.lookup q) := by
  constructor
  · intro env
    exact load_foldl_inv env providersList {}
      (by intro p keys h; simp [List.lookup] at h)
  · intro s p hInv
    cases hk : s.api_keys.lookup p with
    | none =>
      exact ⟨none, s, by simp [get_next_key, hk], rfl, hInv, fun q _ => rfl⟩
    | some keys =>
      obtain ⟨hne, i, hi, hlt⟩ := hInv p keys hk
      refine ⟨some (keys.get ⟨i, hlt⟩),
        { s with key_indices := dictSet s.key_indices p ((i + 1) % keys.length) },
        get_next_key_step s p keys i hk hi hlt, rfl, ?_, ?_⟩
      · intro p' keys' hk'
        have hk'' : s.api_keys.lookup p' = some keys' := hk'
        obtain ⟨hne', i', hi', hlt'⟩ := hInv p' keys' hk''
        refine ⟨hne', ?_⟩
        by_cases hpq : p' = p
        · subst hpq
          have hkeq : keys' = keys := by
            rw [hk''] at hk
            injection hk
          subst hkeq
          exact ⟨(i + 1) % keys'.length, lookup_dictSet_self _ _ _,
            Nat.mod_lt _ (by omega)⟩
        · exact ⟨i', by rw [lookup_dictSet_ne _ _ _ _ hpq]; exact hi', hlt'⟩
      · intro q hq
        exact lookup_dictSet_ne _ _ _ _ hq

theorem claim_C8_registry_invariant_witness :
    (["g"] ≠ [] ∧
      (load_api_keys [("GOOGLE_API_KEY", "g")]).key_indices.lookup "GOOGLE" = some 0) ∧
    (∃ r s', get_next_key
        { api_keys := [("JINA", ["j"])], key_indices := [("JINA", 0)] } "JINA" =
          .ok (r, s') ∧
      s'.api_keys = [("JINA", ["j"])] ∧ KeyInv s' ∧
      ∀ q, q ≠ "JINA" → s'.key_indices.lookup q =
        (([("JINA", 0)] : List (String × Nat)).lookup q)) := by
  constructor
  · exact claim_C8_registry_invariant.1 [("GOOGLE_API_KEY", "g")] "GOOGLE" ["g"] (by decide)
  · exact claim_C8_registry_invariant.2
      { api_keys := [("JINA", ["j"])], key_indices := [("JINA", 0)] } "JINA"
      (by
        intro p keys h
        rw [lookup_singleton] at h
        by_cases hp : p = "JINA"
        · rw [if_pos hp] at h
          injection h with h
          subst h
          refine ⟨by simp, 0, ?_, by simp⟩
          rw [lookup_singleton, if_pos hp]
        · rw [if_neg hp] at h
          exact absurd h (by simp))

/-- C5: `_categorize_viral_level` is the exact step function: at or above 9
the category is MEGA_VIRAL; in [7.5, 9) VIRAL; in [6, 7.5) TRENDING; below 6
POPULAR. -/
theorem claim_C5_category_step_function (score : Rat) :
    (9 ≤ score → categorize_viral_level score = "MEGA_VIRAL") ∧
    ((15 : Rat) / 2 ≤ score → score < 9 → categorize_viral_level score = "VIRAL") ∧
    (6 ≤ score → score < (15 : Rat) / 2 → categorize_viral_level score = "TRENDING") ∧
    (score < 6 → categorize_viral_level score = "POPULAR") := by
  refine ⟨fun h1 => ?_, fun h1 h2 => ?_, fun h1 h2 => ?_, fun h1 => ?_⟩ <;>
    · unfold categorize_viral_level
      split_ifs <;> first | rfl | linarith

theorem claim_C5_category_step_function_witness :
    categorize_viral_level 9 = "MEGA_VIRAL" ∧
    categorize_viral_level ((8999 : Rat) / 1000) = "VIRAL" ∧
    categorize_viral_level ((15 : Rat) / 2) = "VIRAL" ∧
    categorize_viral_level ((7499 : Rat) / 1000) = "TRENDING" ∧
    categorize_viral_level 6 = "TRENDING" ∧
    categorize_viral_level ((5999 : Rat) / 1000) = "POPULAR" :=
  ⟨(claim_C5_category_step_function 9).1 (by norm_num),
   (claim_C5_category_step_function _).2.1 (by norm_num) (by norm_num),
   (claim_C5_category_step_function _).2.1 (by norm_num) (by norm_num),
   (claim_C5_category_step_function _).2.2.1 (by norm_num) (by norm_num),
   (claim_C5_category_step_function 6).2.2.1 (by norm_num) (by norm_num),
   (claim_C5_category_step_function _).2.2.2 (by norm_num)⟩

/-- C4 counterexample: on an unrecognized platform with the non-negative
integer field `relevance_score = 2`, `_calculate_viral_score` returns 20,
outside `[0, 10]` — the fallback branch `relevance_score * 10` is not
clamped. -/
theorem claim_C4_counterexample :
    pyToRat (calculate_viral_score
      { platform := some (.str "blog"), relevance_score := some (.int 2) }) =
      some 20 ∧ ¬((20 : Rat) ≤ 10) := by
  constructor
  · decide
  · norm_num

/-- C4 as amended: for each of the five recognized platforms, a post with
non-negative integer engagement counters scores a float in `[0, 10]`,
scoring 0 when all counters are 0; for any other platform the result is the
unclamped `relevance_score * 10`, which lies in `[0, 10]` only granted
`relevance_score ∈ [0, 1]`. -/
theorem claim_C4_amended_score_range :
    (∀ platform, platform ∈ recognizedPlatforms →
      ∀ v l c sh r rp : Nat, ∃ q : Rat,
        calculate_viral_score (mkCounterPost platform v l c sh r rp) = .float q ∧
        0 ≤ q ∧ q ≤ 10 ∧
        (v = 0 → l = 0 → c = 0 → sh = 0 → r = 0 → rp = 0 → q = 0)) ∧
    (∀ platform : String, platform ∉ recognizedPlatforms → ∀ rel : Rat,
      calculate_viral_score
        { platform := some (.str platform), relevance_score := some (.float rel) } =
        .float (rel * 10) ∧
      (0 ≤ rel → rel ≤ 1 → 0 ≤ rel * 10 ∧ rel * 10 ≤ 10)) := by
  constructor
  · intro platform hmem v l c sh r rp
    fin_cases hmem
    · refine ⟨min 10 (((v : Rat) / 1000 + (l : Rat) / 100 + (c : Rat) / 10) / 100),
        ?_, le_min (by norm_num) (by positivity), min_le_left _ _, ?_⟩
      · simp [calculate_viral_score, mkCounterPost, weighted3, pyInt, getCounter, pyEqStr]
      · intro hv hl hc hsh hr hrp
        subst hv; subst hl; subst hc
        norm_num
    · refine ⟨min 10 (((l : Rat) / 100 + (c : Rat) / 10 + (sh : Rat) / 5) / 50),
        ?_, le_min (by norm_num) (by positivity), min_le_left _ _, ?_⟩
      · simp [calculate_viral_score, mkCounterPost, weighted3, pyInt, getCounter, pyEqStr]
      · intro hv hl hc hsh hr hrp
        subst hl; subst hc; subst hsh
        norm_num
    · refine ⟨min 10 (((l : Rat) / 100 + (c : Rat) / 10 + (sh : Rat) / 5) / 50),
        ?_, le_min (by norm_num) (by positivity), min_le_left _ _, ?_⟩
      · simp [calculate_viral_score, mkCounterPost, weighted3, pyInt, getCounter, pyEqStr]
      · intro hv hl hc hsh hr hrp
        subst hl; subst hc; subst hsh
        norm_num
    · refine ⟨min 10 (((r : Rat) / 10 + (l : Rat) / 50 + (rp : Rat) / 5) / 20),
        ?_, le_min (by norm_num) (by positivity), min_le_left _ _, ?_⟩
      · simp [calculate_viral_score, mkCounterPost, weighted3, pyInt, getCounter, pyEqStr]
      · intro hv hl hc hsh hr hrp
        subst hr; subst hl; subst hrp
        norm_num
    · refine ⟨min 10 (((v : Rat) / 10000 + (l : Rat) / 500 + (sh : Rat) / 100) / 50),
        ?_, le_min (by norm_num) (by positivity), min_le_left _ _, ?_⟩
      · simp [calculate_viral_score, mkCounterPost, weighted3, pyInt, getCounter, pyEqStr]
      · intro hv hl hc hsh hr hrp
        subst hv; subst hl; subst hsh
        norm_num
  · intro platform hmem rel
    simp only [recognizedPlatforms, List.mem_cons, List.not_mem_nil, or_false] at hmem
    push_neg at hmem
    obtain ⟨h1, h2, h3, h4, h5⟩ := hmem
    constructor
    · simp [calculate_viral_score, pyEqStr, pyMul10, h1, h2, h3, h4, h5]
    · intro hr0 hr1
      constructor
      · positivity
      · linarith

theorem claim_C4_amended_score_range_witness :
    (∃ q : Rat,
      calculate_viral_score (mkCounterPost "twitter" 0 0 0 0 0 0) = .float q ∧
      0 ≤ q ∧ q ≤ 10 ∧
      (0 = 0 → 0 = 0 → 0 = 0 → 0 = 0 → 0 = 0 → 0 = 0 → q = 0)) ∧
    (calculate_viral_score
        { platform := some (.str "blog"),
          relevance_score := some (.float ((1 : Rat) / 2)) } =
        .float ((1 : Rat) / 2 * 10) ∧
      (0 ≤ (1 : Rat) / 2 → (1 : Rat) / 2 ≤ 1 →
        0 ≤ (1 : Rat) / 2 * 10 ∧ (1 : Rat) / 2 * 10 ≤ 10)) :=
  ⟨claim_C4_amended_score_range.1 "twitter" (by decide) 0 0 0 0 0 0,
   claim_C4_amended_score_range.2 "blog" (by decide) ((1 : Rat) / 2)⟩

/-- C7 counterexample: on a youtube post with a large numeric `view_count`, a
non-numeric `like_count` is NOT treated as zero — the caught
`ValueError` zeroes the whole score (0 instead of the 10 that the
likes-as-zero reading predicts). -/
theorem claim_C7_counterexample :
    calculate_viral_score
      { platform := some (.str "youtube"), view_count := some (.int 1000000),
        like_count := some (.str "abc") } = .float 0 ∧
    calculate_viral_score
      { platform := some (.str "youtube"), view_count := some (.int 1000000),
        like_count := some (.int 0) } = .float 10 ∧
    PyVal.float 0 ≠ PyVal.float 10 := by
  refine ⟨by decide, ?_, by decide⟩
  norm_num [calculate_viral_score, weighted3, pyInt, getCounter, pyEqStr, min_def]

/-- C7 as amended: `_calculate_viral_score` is total (it returns a value for
every post — the model's type says as much); a MISSING counter is treated
as zero (a post with no counter keys scores exactly like the all-zeros
post, on every platform); but a NON-numeric counter is not treated as zero:
on each recognized platform it makes the caught conversion error zero the
whole score, regardless of the remaining counters. -/
theorem claim_C7_amended_malformed_counters :
    (∀ pl : String,
      calculate_viral_score { platform := some (.str pl) } =
        calculate_viral_score
          { platform := some (.str pl), view_count := some (.int 0),
            views := some (.int 0), like_count := some (.int 0),
            likes := some (.int 0), comment_count := some (.int 0),
            comments := some (.int 0), shares := some (.int 0),
            retweets := some (.int 0), retweet_count := some (.int 0),
            replies := some (.int 0), reply_count := some (.int 0),
            relevance_score := some (.int 0) }) ∧
    (∀ post v, post.platform = some (.str "youtube") → post.like_count = some v →
      pyInt v = .error () → calculate_viral_score post = .float 0) ∧
    (∀ post v, post.platform = some (.str "instagram") ∨
        post.platform = some (.str "facebook") →
      post.likes = some v → pyInt v = .error () →
      calculate_viral_score post = .float 0) ∧
    (∀ post v, post.platform = some (.str "twitter") → post.retweets = some v →
      pyInt v = .error () → calculate_viral_score post = .float 0) ∧
    (∀ post v, post.platform = some (.str "tiktok") → post.likes = some v →
      pyInt v = .error () → calculate_viral_score post = .float 0) := by
  refine ⟨?_, ?_, ?_, ?_, ?_⟩
  · intro pl
    by_cases h1 : pl = "youtube"
    · simp [calculate_viral_score, pyEqStr, weighted3, pyInt, getCounter, h1]
    · by_cases h2 : pl = "instagram"
      · simp [calculate_viral_score, pyEqStr, weighted3, pyInt, getCounter, h2]
      · by_cases h3 : pl = "facebook"
        · simp [calculate_viral_score, pyEqStr, weighted3, pyInt, getCounter, h3]
        · by_cases h4 : pl = "twitter"
          · simp [calculate_viral_score, pyEqStr, weighted3, pyInt, getCounter, h4]
          · by_cases h5 : pl = "tiktok"
            · simp [calculate_viral_score, pyEqStr, weighted3, pyInt, getCounter, h5]
            · simp [calculate_viral_score, pyEqStr, pyMul10, h1, h2, h3, h4, h5]
  · intro post v hpl hlk herr
    have hcnt : getCounter post.like_count post.likes = v := by
      simp [getCounter, hlk]
    cases hva : pyInt (getCounter post.view_count post.views) with
    | ok a => simp [calculate_viral_score, pyEqStr, hpl, weighted3, hva, hcnt, herr]
    | error e => simp [calculate_viral_score, pyEqStr, hpl, weighted3, hva, hcnt, herr]
  · intro post v hpl hlk herr
    have hcnt : getCounter post.likes post.like_count = v := by
      simp [getCounter, hlk]
    rcases hpl with hpl | hpl <;>
      simp [calculate_viral_score, pyEqStr, hpl, weighted3, hcnt, herr]
  · intro post v hpl hrt herr
    have hcnt : getCounter post.retweets post.retweet_count = v := by
      simp [getCounter, hrt]
    simp [calculate_viral_score, pyEqStr, hpl, weighted3, hcnt, herr]
  · intro post v hpl hlk herr
    cases hva : pyInt (getCounter post.views post.view_count) with
    | ok a => simp [calculate_viral_score, pyEqStr, hpl, weighted3, hva, hlk, herr]
    | error e => simp [calculate_viral_score, pyEqStr, hpl, weighted3, hva, hlk, herr]

theorem claim_C7_amended_malformed_counters_witness :
    calculate_viral_score { platform := some (.str "instagram") } =
      calculate_viral_score
        { platform := some (.str "instagram"), view_count := some (.int 0),
          views := some (.int 0), like_count := some (.int 0),
          likes := some (.int 0), comment_count := some (.int 0),
          comments := some (.int 0), shares := some (.int 0),
          retweets := some (.int 0), retweet_count := some (.int 0),
          replies := some (.int 0), reply_count := some (.int 0),
          relevance_score := some (.int 0) } ∧
    calculate_viral_score
      { platform := some (.str "twitter"), retweets := some .pynone,
        likes := some (.int 50000) } = .float 0 :=
  ⟨claim_C7_amended_malformed_counters.1 "instagram",
   claim_C7_amended_malformed_counters.2.2.2.1
     { platform := some (.str "twitter"), retweets := some .pynone,
       likes := some (.int 50000) } .pynone rfl rfl rfl⟩

theorem viralLoop_eq_keptPosts (posts : List Post)
    (h : ∀ p ∈ posts, NumericScore p) :
    viralLoop posts = .ok (keptPosts posts) := by
  induction posts with
  | nil => simp [viralLoop, keptPosts]
  | cons p rest ih =>
    obtain ⟨q, hq⟩ := h p (List.mem_cons_self p rest)
    have hrest := ih (fun x hx => h x (List.mem_cons_of_mem p hx))
    simp only [viralLoop, pyGeConst, hq, hrest, keptPosts, List.filter_cons]
    by_cases h6 : 6 ≤ q
    · simp [h6, hq, keptPosts]
    · simp [h6, hq, keptPosts]

/-- C6 as amended: for every social-results input whose posts all score to
numeric values (in particular, whenever counters are numeric or missing),
`_identify_viral_content` returns the posts scoring at or above 6.0,
augmented with `viral_score`/`viral_category`, as a descending-by-score
sorted permutation truncated to at most 15 posts; no posts yields `[]`.
(For a post whose score is not a number the function instead raises
`TypeError`, see the counterexample.) -/
theorem claim_C6_amended_viral_selection (social : SocialResults)
    (h : ∀ p ∈ social.all_posts, NumericScore p) :
    ∃ l, List.Perm l (keptPosts social.all_posts) ∧
      List.Sorted descRel l ∧
      identify_viral_content social = .ok (l.take 15) ∧
      (l.take 15).length ≤ 15 ∧
      (social.all_posts = [] → identify_viral_content social = .ok []) := by
  refine ⟨(keptPosts social.all_posts).insertionSort descRel,
    List.perm_insertionSort descRel _, List.sorted_insertionSort descRel _,
    ?_, ?_, ?_⟩
  · unfold identify_viral_content
    cases hemp : social.all_posts.isEmpty with
    | true =>
      have hnil : social.all_posts = [] := by
        simpa [List.isEmpty_iff] using hemp
      simp [hnil, keptPosts]
    | false =>
      simp [hemp, viralLoop_eq_keptPosts social.all_posts h]
  · simp [List.length_take]
  · intro hnil
    simp [identify_viral_content, hnil]

/-- C6 counterexample: a social-results input containing one post with an
unrecognized platform and a string `relevance_score` makes
`_identify_viral_content` raise `TypeError` (its score is the repeated
string, and `viral_score >= 6.0` is not defined between `str` and `float`)
instead of returning any list of posts. -/
theorem claim_C6_counterexample :
    identify_viral_content
      { all_posts := [{ platform := some (.str "blog"),
                        relevance_score := some (.str "x") }] } =
      .error "TypeError" := by
  rfl

theorem claim_C6_amended_viral_selection_witness :
    ∃ l, List.Perm l (keptPosts [mkCounterPost "youtube" 1000000 0 0 0 0 0]) ∧
      List.Sorted descRel l ∧
      identify_viral_content
        { all_posts := [mkCounterPost "youtube" 1000000 0 0 0 0 0] } =
        .ok (l.take 15) ∧
      (l.take 15).length ≤ 15 ∧
      ([mkCounterPost "youtube" 1000000 0 0 0 0 0] = ([] : List Post) →
        identify_viral_content
          { all_posts := [mkCounterPost "youtube" 1000000 0 0 0 0 0] } = .ok []) :=
  claim_C6_amended_viral_selection
    { all_posts := [mkCounterPost "youtube" 1000000 0 0 0 0 0] }
    (by
      intro p hp
      simp only [List.mem_singleton] at hp
      subst hp
      refine ⟨10, ?_⟩
      norm_num [calculate_viral_score, mkCounterPost, pyEqStr, weighted3, pyInt,
        getCounter, pyToRat, min_def])

/-- Credential pools as loaded contain no empty-string credentials (`os.getenv`
never returns one; moreover `if api_key:` would skip a blank one). -/
def NoBlankKeys (s : KeyState) : Prop :=
  ∀ p keys, s.api_keys.lookup p = some keys → "" ∉ keys

theorem KeyInv_rotated (s : KeyState) (p : String) (keys : List String) (i : Nat)
    (hInv : KeyInv s) (hk : s.api_keys.lookup p = some keys) (hlt : i < keys.length) :
    KeyInv { s with key_indices := dictSet s.key_indices p ((i + 1) % keys.length) } := by
  intro p' keys' hk'
  have hk'' : s.api_keys.lookup p' = some keys' := hk'
  obtain ⟨hne', i', hi', hlt'⟩ := hInv p' keys' hk''
  refine ⟨hne', ?_⟩
  by_cases hpq : p' = p
  · subst hpq
    have hkeq : keys' = keys := by
      rw [hk''] at hk
      injection hk
    subst hkeq
    exact ⟨(i + 1) % keys'.length, lookup_dictSet_self _ _ _, Nat.mod_lt _ (by omega)⟩
  · exact ⟨i', by rw [lookup_dictSet_ne _ _ _ _ hpq]; exact hi', hlt'⟩

theorem fanoutStep_registered (search : String → String → Except String ApiResult)
    (acc : List (String × ApiResult)) (st : KeyState) (p : String) (keys : List String)
    (hInv : KeyInv st) (hnb : NoBlankKeys st)
    (hk : st.api_keys.lookup p = some keys) :
    ∃ k st', k ∈ keys ∧
      fanoutStep search (acc, st) p = (dictSet acc p (caughtResult (search p k)), st') ∧
      st'.api_keys = st.api_keys ∧ KeyInv st' ∧ NoBlankKeys st' := by
  obtain ⟨hne, i, hi, hlt⟩ := hInv p keys hk
  have hstep := get_next_key_step st p keys i hk hi hlt
  have hkmem : keys.get ⟨i, hlt⟩ ∈ keys := keys.get_mem i hlt
  have hkne : (keys.get ⟨i, hlt⟩).isEmpty = false := by
    have hnotin := hnb p keys hk
    have : keys.get ⟨i, hlt⟩ ≠ "" := fun heq => hnotin (heq ▸ hkmem)
    cases hemp : (keys.get ⟨i, hlt⟩).isEmpty
    · rfl
    · exact absurd ((String.isEmpty_iff _).mp hemp) this
  refine ⟨keys.get ⟨i, hlt⟩,
    { st with key_indices := dictSet st.key_indices p ((i + 1) % keys.length) },
    hkmem, ?_, rfl, KeyInv_rotated st p keys i hInv hk hlt, ?_⟩
  · simp only [fanoutStep, hk, Option.isSome_some, if_true, hstep, hkne,
      Bool.false_eq_true, if_false]
  · intro p' keys' hk'
    exact hnb p' keys' hk'

theorem fanoutStep_preserve (search : String → String → Except String ApiResult)
    (acc : List (String × ApiResult)) (st : KeyState) (q : String)
    (hInv : KeyInv st) (hnb : NoBlankKeys st) :
    (fanoutStep search (acc, st) q).2.api_keys = st.api_keys ∧
    KeyInv (fanoutStep search (acc, st) q).2 ∧
    NoBlankKeys (fanoutStep search (acc, st) q).2 := by
  cases hk : st.api_keys.lookup q with
  | none => simp [fanoutStep, hk]; exact ⟨hInv, hnb⟩
  | some keys =>
    obtain ⟨k, st', -, hstep, hapi, hinv', hnb'⟩ :=
      fanoutStep_registered search acc st q keys hInv hnb hk
    rw [hstep]
    exact ⟨hapi, hinv', hnb'⟩

theorem fanoutStep_lookup_other (search : String → String → Except String ApiResult)
    (acc : List (String × ApiResult)) (st : KeyState) (q p : String) (hpq : p ≠ q) :
    (fanoutStep search (acc, st) q).1.lookup p = acc.lookup p := by
  unfold fanoutStep
  cases hk : (st.api_keys.lookup q).isSome with
  | false => simp [hk]
  | true =>
    simp only [hk, if_true]
    cases hgn : get_next_key st q with
    | error e => simp [lookup_dictSet_ne _ _ _ _ hpq]
    | ok pr =>
      obtain ⟨ro, st'⟩ := pr
      cases ro with
      | none => simp
      | some k =>
        cases hemp : k.isEmpty with
        | true => simp [hemp]
        | false => simp [hemp, lookup_dictSet_ne _ _ _ _ hpq]

theorem fanout_fold_lookup_frozen (search : String → String → Except String ApiResult) :
    ∀ (ps : List String) (acc : List (String × ApiResult)) (st : KeyState)
      (p : String), p ∉ ps →
      (ps.foldl (fanoutStep search) (acc, st)).1.lookup p = acc.lookup p := by
  intro ps
  induction ps with
  | nil => intro acc st p _; rfl
  | cons q rest ih =>
    intro acc st p hp
    have hpq : p ≠ q := fun h => hp (h ▸ List.mem_cons_self q rest)
    have hprest : p ∉ rest := fun h => hp (List.mem_cons_of_mem q h)
    simp only [List.foldl_cons]
    exact (ih (fanoutStep search (acc, st) q).1 (fanoutStep search (acc, st) q).2
      p hprest).trans (fanoutStep_lookup_other search acc st q p hpq)

theorem fanout_fold_mem (search : String → String → Except String ApiResult) :
    ∀ (ps : List String) (acc : List (String × ApiResult)) (st : KeyState)
      (p : String) (keys : List String),
      p ∈ ps → ps.Nodup → KeyInv st → NoBlankKeys st →
      st.api_keys.lookup p = some keys →
      ∃ k, k ∈ keys ∧
        (ps.foldl (fanoutStep search) (acc, st)).1.lookup p =
          some (caughtResult (search p k)) := by
  intro ps
  induction ps with
  | nil => intro acc st p keys hmem; exact absurd hmem (List.not_mem_nil p)
  | cons q rest ih =>
    intro acc st p keys hmem hnd hInv hnb hk
    simp only [List.foldl_cons]
    by_cases hpq : p = q
    · subst hpq
      obtain ⟨k, st', hkmem, hstep, -, -, -⟩ :=
        fanoutStep_registered search acc st p keys hInv hnb hk
      have hprest : p ∉ rest := (List.nodup_cons.mp hnd).1
      refine ⟨k, hkmem, ?_⟩
      rw [hstep]
      rw [fanout_fold_lookup_frozen search rest _ _ p hprest]
      exact lookup_dictSet_self _ _ _
    · have hmem' : p ∈ rest := by
        cases List.mem_cons.mp hmem with
        | inl h => exact absurd h hpq
        | inr h => exact h
      obtain ⟨hapi, hinv', hnb'⟩ := fanoutStep_preserve search acc st q hInv hnb
      have hk' : (fanoutStep search (acc, st) q).2.api_keys.lookup p = some keys := by
        rw [hapi]; exact hk
      have := ih (fanoutStep search (acc, st) q).1 (fanoutStep search (acc, st) q).2
        p keys hmem' (List.nodup_cons.mp hnd).2 hinv' hnb' hk'
      exact this

/-- C2: in the keyed-API fan-out, when provider `A`'s search returns a
result with populated items and provider `B`'s search raises (with a
non-empty exception string, as a transport error carries), the aggregated
mapping holds both keys — `A` with its result, `B` as
`{success: false, error: msg}` with `msg` non-empty — and every registered
provider is still attempted and recorded.  The fan-out itself returns this
mapping as a plain value: by construction (its type carries no exception
component) it never throws. -/
theorem claim_C2_fanout_partial_results
    (s : KeyState) (search : String → String → Except String ApiResult)
    (A B : String) (poolA poolB : List String) (rA : ApiResult) (msg : String)
    (hInv : KeyInv s) (hnb : NoBlankKeys s) (_hAB : A ≠ B)
    (hA : A ∈ providersList) (hB : B ∈ providersList)
    (hkA : s.api_keys.lookup A = some poolA)
    (hkB : s.api_keys.lookup B = some poolB)
    (hsA : ∀ k, search A k = .ok rA) (hitems : rA.results ≠ [])
    (hsB : ∀ k, search B k = .error msg) (hmsg : msg ≠ "") :
    (execute_api_rotation_search s search).1.lookup A = some rA ∧
    ((execute_api_rotation_search s search).1.lookup B =
      some { success := false, error := some msg } ∧ msg ≠ "") ∧
    rA.results ≠ [] ∧
    (∀ p, p ∈ providersList → (s.api_keys.lookup p).isSome →
      ((execute_api_rotation_search s search).1.lookup p).isSome) := by
  have hnd : providersList.Nodup := by decide
  unfold execute_api_rotation_search
  refine ⟨?_, ⟨?_, hmsg⟩, hitems, ?_⟩
  · obtain ⟨k, -, hlook⟩ :=
      fanout_fold_mem search providersList [] s A poolA hA hnd hInv hnb hkA
    rw [hlook, hsA k]
    rfl
  · obtain ⟨k, -, hlook⟩ :=
      fanout_fold_mem search providersList [] s B poolB hB hnd hInv hnb hkB
    rw [hlook, hsB k]
    rfl
  · intro p hp hreg
    obtain ⟨keys, hkeys⟩ := Option.isSome_iff_exists.mp hreg
    obtain ⟨k, -, hlook⟩ :=
      fanout_fold_mem search providersList [] s p keys hp hnd hInv hnb hkeys
    rw [hlook]
    rfl

theorem claim_C2_fanout_partial_results_witness :
    (execute_api_rotation_search
        { api_keys := [("GOOGLE", ["g"]), ("EXA", ["e"])],
          key_indices := [("GOOGLE", 0), ("EXA", 0)] }
        (fun p _ => if p = "GOOGLE"
          then .ok { success := true, results := ["item1"], provider := some "GOOGLE" }
          else .error "boom")).1.lookup "GOOGLE" =
      some { success := true, results := ["item1"], provider := some "GOOGLE" } ∧
    ((execute_api_rotation_search
        { api_keys := [("GOOGLE", ["g"]), ("EXA", ["e"])],
          key_indices := [("GOOGLE", 0), ("EXA", 0)] }
        (fun p _ => if p = "GOOGLE"
          then .ok { success := true, results := ["item1"], provider := some "GOOGLE" }
          else .error "boom")).1.lookup "EXA" =
      some { success := false, error := some "boom" } ∧ ("boom" : String) ≠ "") ∧
    (["item1"] : List String) ≠ [] ∧
    (∀ p, p ∈ providersList →
      ((({ api_keys := [("GOOGLE", ["g"]), ("EXA", ["e"])],
           key_indices := [("GOOGLE", 0), ("EXA", 0)] } : KeyState)).api_keys.lookup p).isSome →
      ((execute_api_rotation_search
        { api_keys := [("GOOGLE", ["g"]), ("EXA", ["e"])],
          key_indices := [("GOOGLE", 0), ("EXA", 0)] }
        (fun p _ => if p = "GOOGLE"
          then .ok { success := true, results := ["item1"], provider := some "GOOGLE" }
          else .error "boom")).1.lookup p).isSome) :=
  claim_C2_fanout_partial_results
    { api_keys := [("GOOGLE", ["g"]), ("EXA", ["e"])],
      key_indices := [("GOOGLE", 0), ("EXA", 0)] }
    (fun p _ => if p = "GOOGLE"
      then .ok { success := true, results := ["item1"], provider := some "GOOGLE" }
      else .error "boom")
    "GOOGLE" "EXA" ["g"] ["e"]
    { success := true, results := ["item1"], provider := some "GOOGLE" } "boom"
    (by
      intro p keys h
      by_cases h1 : p = "GOOGLE"
      · subst h1
        simp only [List.lookup] at h
        norm_num at h
        subst h
        exact ⟨by simp, 0, by rfl, by simp⟩
      · by_cases h2 : p = "EXA"
        · subst h2
          simp [List.lookup, show (("EXA" : String) == "GOOGLE") = false from by decide] at h
          subst h
          exact ⟨by simp, 0, by rfl, by simp⟩
        · have hb1 : (p == "GOOGLE") = false := by simp [h1]
          have hb2 : (p == "EXA") = false := by simp [h2]
          simp [List.lookup, hb1, hb2] at h)
    (by
      intro p keys h
      by_cases h1 : p = "GOOGLE"
      · subst h1
        simp only [List.lookup] at h
        norm_num at h
        subst h
        simp
      · by_cases h2 : p = "EXA"
        · subst h2
          simp [List.lookup, show (("EXA" : String) == "GOOGLE") = false from by decide] at h
          subst h
          simp
        · have hb1 : (p == "GOOGLE") = false := by simp [h1]
          have hb2 : (p == "EXA") = false := by simp [h2]
          simp [List.lookup, hb1, hb2] at h)
    (by decide) (by decide) (by decide) rfl rfl
    (fun k => rfl) (by decide) (fun k => rfl) (by decide)

/-- C1 counterexample: with the default flags, an exception raised by the
deep-crawl collaborator in phase 1 is re-raised by the pipeline's
`except Exception: raise` handler — the run aborts with the exception
instead of returning a `search_results` structure with partial results. -/
theorem claim_C1_counterexample :
    execute_massive_search_with_websailor {} {}
      { websailor := .error "boom",
        search := fun _ _ => .ok {},
        supadataImport := .ok (),
        supadata := fun _ => .ok {},
        capture := .ok [] }
      "coffee shops" "sess1" = .error "boom" := rfl

/-- C1 as amended: only failures inside phase 2 (per-provider) and phase 3
(the social fan-out, including its import failure) are absorbed into partial
results; an exception raised by the deep-crawl collaborator in phase 1, by
the `>= 6.0` comparison of viral selection in phase 4, or by the capture
collaborator in phase 5 propagates out of
`execute_massive_search_with_websailor` (its handler re-raises), aborting
the run. -/
theorem claim_C1_amended_phase_failures :
    (∀ (flags : ManagerFlags) (s : KeyState) (o : Oracles) (q sid e : String),
      flags.websailor_enabled = true → o.websailor = .error e →
      execute_massive_search_with_websailor flags s o q sid = .error e) ∧
    (∀ (b : Bool) (s : KeyState) (o : Oracles) (q sid m : String),
      o.supadataImport = .error m →
      ∃ res,
        execute_massive_search_with_websailor
          { websailor_enabled := false, social_search_enabled := true,
            screenshot_capture_enabled := b } s o q sid = .ok res ∧
        res.social_results =
          some { all_posts := [], platform_results := [], error := some m } ∧
        res.viral_content = [] ∧ res.screenshots_captured = []) ∧
    (∀ e : String,
      execute_massive_search_with_websailor
        { websailor_enabled := false, social_search_enabled := true,
          screenshot_capture_enabled := true } {}
        { websailor := .ok [],
          search := fun _ _ => .ok {},
          supadataImport := .ok (),
          supadata := fun pl =>
            if pl = "youtube" then
              .ok { success := true,
                    platforms := [("youtube",
                      [{ platform := some (.str "blog"),
                         relevance_score := some (.int 1) }])] }
            else .ok {},
          capture := .error e } "q" "sid" = .error e) ∧
    (execute_massive_search_with_websailor
        { websailor_enabled := false, social_search_enabled := true,
          screenshot_capture_enabled := true } {}
        { websailor := .ok [],
          search := fun _ _ => .ok {},
          supadataImport := .ok (),
          supadata := fun pl =>
            if pl = "youtube" then
              .ok { success := true,
                    platforms := [("youtube",
                      [{ platform := some (.str "blog"),
                         relevance_score := some (.str "x") }])] }
            else .ok {},
          capture := .ok [] } "q" "sid" = .error "TypeError") := by
  refine ⟨?_, ?_, fun e => rfl, rfl⟩
  · intro flags s o q sid e hws herr
    simp [execute_massive_search_with_websailor, hws, herr]
  · intro b s o q sid m himport
    simp only [execute_massive_search_with_websailor, socialPhases,
      execute_social_search, himport, identify_viral_content, List.isEmpty_nil,
      if_true, Bool.not_true, Bool.and_false, if_false]
    exact ⟨_, rfl, rfl, rfl, rfl⟩

theorem claim_C1_amended_phase_failures_witness :
    execute_massive_search_with_websailor {} {}
      { websailor := .error "crawlfail",
        search := fun _ _ => .ok {},
        supadataImport := .ok (),
        supadata := fun _ => .ok {},
        capture := .ok [] } "q" "sid" = .error "crawlfail" ∧
    (∃ res,
      execute_massive_search_with_websailor
        { websailor_enabled := false, social_search_enabled := true,
          screenshot_capture_enabled := true } {}
        { websailor := .ok [],
          search := fun _ _ => .ok {},
          supadataImport := .error "sad",
          supadata := fun _ => .ok {},
          capture := .ok [] } "q" "sid" = .ok res ∧
      res.social_results =
        some { all_posts := [], platform_results := [], error := some "sad" } ∧
      res.viral_content = [] ∧ res.screenshots_captured = []) :=
  ⟨claim_C1_amended_phase_failures.1 {} {}
    { websailor := .error "crawlfail",
      search := fun _ _ => .ok {},
      supadataImport := .ok (),
      supadata := fun _ => .ok {},
      capture := .ok [] } "q" "sid" "crawlfail" rfl rfl,
   claim_C1_amended_phase_failures.2.1 true {}
    { websailor := .ok [],
      search := fun _ _ => .ok {},
      supadataImport := .error "sad",
      supadata := fun _ => .ok {},
      capture := .ok [] } "q" "sid" "sad" rfl⟩

/-- C10: the background stage of the complete-workflow route never reaches
its success artifact: whatever the collaborators do, the outcome is the
`workflow_erro` artifact, and whenever the search and viral-analysis steps
themselves succeed the recorded error is the `NameError` from the undefined
module-level report helpers. -/
theorem claim_C10_workflow_always_errors (o : WorkflowOracles) :
    (∃ e, execute_full_workflow o = .erro e) ∧
    execute_full_workflow o ≠ .completo ∧
    (o.search = .ok () → o.viral = .ok () →
      execute_full_workflow o =
        .erro "NameError: name _generate_collection_report is not defined") := by
  have hmain : ∃ e, execute_full_workflow o = .erro e := by
    cases hs : o.search with
    | error e => exact ⟨e, by simp [execute_full_workflow, hs]⟩
    | ok u =>
      cases hv : o.viral with
      | error e => exact ⟨e, by simp [execute_full_workflow, hs, hv]⟩
      | ok v =>
        exact ⟨"NameError: name _generate_collection_report is not defined",
          by simp [execute_full_workflow, hs, hv, collectionReportCall]⟩
  refine ⟨hmain, ?_, ?_⟩
  · obtain ⟨e, he⟩ := hmain
    rw [he]
    simp
  · intro hs hv
    simp [execute_full_workflow, hs, hv, collectionReportCall]

theorem claim_C10_workflow_always_errors_witness :
    execute_full_workflow
      { search := .ok (), viral := .ok (), synthesis := .ok (),
        modulesGen := .ok (), finalReport := .ok () } =
      .erro "NameError: name _generate_collection_report is not defined" :=
  (claim_C10_workflow_always_errors
    { search := .ok (), viral := .ok (), synthesis := .ok (),
      modulesGen := .ok (), finalReport := .ok () }).2.2 rfl rfl
